import Mathlib

/-!
Shallow embedding of the `promise` package of avila-r/ego.

The Go `Promise[T]` is a mutable struct `{mu, done, once, value, err, state,
ctx, cancel}` guarded by a reader/writer lock.  We embed it as an immutable
record and translate each exported operation field-by-field from the Go
source; a Go method that mutates the receiver becomes a function returning
the updated record.  The `done` channel is a one-shot gate: its only
observable is whether it has been closed, embedded as the Boolean
`doneClosed` (the `sync.Once` wrapper makes `close` idempotent, which the
Boolean assignment models exactly).  The cancellation context is observable
only through its cancelled bit, embedded as `ctxCancelled`.  Go `error`
values are embedded as `Option Err` with `Err := String` (errors are built
with `errors.New` on string messages); Go `nil` is `none`.  Go zero values
are `default` of an `Inhabited` instance.

Concurrency: each goroutine body is embedded as a separate function on the
promise record, and an interleaving of goroutines is a sequence of
applications of those functions.  A combinator that begins with `<-p.done`
is modelled by taking the source promise in its post-gate-closure snapshot;
theorems about such combinators carry the hypothesis `p.doneClosed = true`.
-/

set_option autoImplicit false

namespace Ego

/-- Lifecycle states of a promise, from `status.go`
(`StateRunning`, `StateCompleted`/`StateSuccess`, `StateFailed`,
`StateCancelled`, with labels "Running", "Success", "Failed", "Cancelled"). -/
inductive State where
  | running
  | success
  | failed
  | cancelled
deriving DecidableEq, Repr, Inhabited

/-- Go `error` values: built by `errors.New` from a message string;
`Option.none` is Go's `nil` error. -/
abbrev Err := String

/-- The empty struct `type Void struct{}` used by `ThenAccept`/`ThenRun`. -/
structure Void where
deriving DecidableEq, Repr, Inhabited

/-- The observable fields of `Promise[T]`: `value`, `err`, `state`, whether
the `done` channel has been closed, and whether the cancellation context has
been cancelled.  (`mu` and `once` are synchronization devices with no
observable state of their own.) -/
structure Promise (T : Type) where
  value : T
  err : Option Err
  state : State
  doneClosed : Bool
  ctxCancelled : Bool
deriving DecidableEq, Repr

/-- `Concurrency` selects the synchronous or asynchronous variant of a
combinator (`Sync`/`Async` in `concurrency.go`). -/
inductive Concurrency where
  | sync
  | async
deriving DecidableEq, Repr

/-- `func (c Concurrency) IsAsync() bool { return c == Async }` -/
def Concurrency.IsAsync : Concurrency → Bool
  | .async => true
  | .sync => false

namespace Promise

/-- `Empty[T]()`: an incomplete promise — open gate, `StateRunning`,
zero `value`, `nil` err, fresh (uncancelled) context. -/
def Empty (T : Type) [Inhabited T] : Promise T :=
  { value := default, err := none, state := .running,
    doneClosed := false, ctxCancelled := false }

/-- `Completed(value)`: already succeeded, gate closed (`p.close()`). -/
def Completed {T : Type} (value : T) : Promise T :=
  { value := value, err := none, state := .success,
    doneClosed := true, ctxCancelled := false }

/-- The promise `Of(supplier)` returns to its caller, before the spawned
goroutine has written anything: the same fields as `Empty` (lines 78–84). -/
def OfInit (T : Type) [Inhabited T] : Promise T :=
  { value := default, err := none, state := .running,
    doneClosed := false, ctxCancelled := false }

/-- The body of the goroutine spawned by `Of` (lines 86–98), run when the
supplier returns `(v, e)`: under the lock it writes `value` and `err`
unconditionally and sets `state` from `err`; the deferred `p.close()` then
closes the gate (idempotently, via `once`).  Note: unlike `Complete` /
`CompleteExceptionally`, this write is NOT guarded by a check that `state`
is still `Running`. -/
def supplierWrite {T : Type} (p : Promise T) (v : T) (e : Option Err) : Promise T :=
  { p with value := v, err := e,
           state := if e.isSome then .failed else .success,
           doneClosed := true }

/-- `Of(supplier)` in the run where the spawned goroutine executes with no
interference: the supplier's result written over the initial record. -/
def OfRun {T : Type} [Inhabited T] (supplier : Unit → T × Option Err) : Promise T :=
  supplierWrite (OfInit T) (supplier ()).1 (supplier ()).2

/-- `Complete(value)`: returns `false` unchanged unless `state == Running`;
otherwise writes `value`, moves to `Success`, closes the gate, returns
`true` (lines 347–359). -/
def Complete {T : Type} (p : Promise T) (value : T) : Bool × Promise T :=
  if p.state ≠ .running then (false, p)
  else (true, { p with value := value, state := .success, doneClosed := true })

/-- `CompleteExceptionally(err)`: returns `false` unchanged unless
`state == Running`; otherwise writes `err` (which may be Go `nil`), moves to
`Failed`, closes the gate, returns `true` (lines 362–374). -/
def CompleteExceptionally {T : Type} (p : Promise T) (err : Option Err) : Bool × Promise T :=
  if p.state ≠ .running then (false, p)
  else (true, { p with err := err, state := .failed, doneClosed := true })

/-- `Cancel()`: if still `Running`, moves to `Cancelled`, cancels the
context, closes the gate; otherwise does nothing.  It does not touch
`value` or `err`, and returns no value (lines 453–461). -/
def Cancel {T : Type} (p : Promise T) : Promise T :=
  if p.state = .running then
    { p with state := .cancelled, ctxCancelled := true, doneClosed := true }
  else p

/-- `Get()`: after waiting on the gate, returns `(value, err)` under the
read lock (lines 339–344).  Theorems using it assume `doneClosed = true`. -/
def Get {T : Type} (p : Promise T) : T × Option Err :=
  (p.value, p.err)

/-- `Join()`: after waiting on the gate, panics with `err` if it is
non-nil, else returns `value` (lines 328–336).  The panic is embedded as
`Except.error` carrying the panic payload. -/
def Join {T : Type} (p : Promise T) : Except Err T :=
  match p.err with
  | some e => .error e
  | none => .ok p.value

/-- `IsDone()`: `state != StateRunning`. -/
def IsDone {T : Type} (p : Promise T) : Bool :=
  p.state ≠ .running

/-- `IsSuccess()`: `state == StateSuccess`. -/
def IsSuccess {T : Type} (p : Promise T) : Bool :=
  p.state = .success

/-- `IsCancelled()`: `state == StateCancelled`. -/
def IsCancelled {T : Type} (p : Promise T) : Bool :=
  p.state = .cancelled

/-- `IsError()`: `state == StateFailed`. -/
def IsError {T : Type} (p : Promise T) : Bool :=
  p.state = .failed

/-- `IsCompletedExceptionally()` is an alias for `IsError()`. -/
def IsCompletedExceptionally {T : Type} (p : Promise T) : Bool :=
  p.IsError

/-- The sentinel `errors.New("promise timeout")` of `Timeout` (line 383). -/
def timeoutError : Err := "promise timeout"

/-- The timer branch of the supervisor goroutine spawned by
`Timeout(duration)` (lines 378–385): when the timer fires before the gate
closes, it calls `CompleteExceptionally` with the timeout sentinel. -/
def timeoutFire {T : Type} (p : Promise T) : Bool × Promise T :=
  p.CompleteExceptionally (some timeoutError)

/-- `ThenWithConcurrency(concurrency, pipeline)` (lines 133–150): after the
gate, under the lock, a failed source is returned as-is (the receiver
pointer itself); otherwise the async variant returns a fresh promise built
by `Of` of `pipeline(p.value)`, and the sync variant overwrites `p.value`
in place and returns the receiver.  The Boolean records whether the Go code
returned a freshly allocated promise (`true`) or the receiver pointer `p`
itself (`false`). -/
def ThenWithConcurrency {T : Type} [Inhabited T] (p : Promise T)
    (concurrency : Concurrency) (pipeline : T → T) : Bool × Promise T :=
  if p.err.isSome then (false, p)
  else if concurrency.IsAsync then
    (true, OfRun (fun _ => (pipeline p.value, none)))
  else
    (false, { p with value := pipeline p.value })

/-- `Then(pipeline)` = `ThenWithConcurrency(Async, pipeline)`. -/
def Then {T : Type} [Inhabited T] (p : Promise T) (pipeline : T → T) : Bool × Promise T :=
  p.ThenWithConcurrency .async pipeline

/-- `ThenAcceptWithConcurrency(concurrency, consumer)` (lines 158–180):
async — a fresh `Of` promise whose supplier waits on the gate, propagates a
non-nil `err` as `(Void{}, err)`, and otherwise calls the consumer and
returns `(Void{}, nil)`; sync — waits, and on a failed source returns
`Completed(Void{})` (the error is dropped), otherwise calls the consumer
and returns `Completed(Void{})`.  The consumer call (a Go side effect) is
embedded as an evaluated-and-discarded application. -/
def ThenAcceptWithConcurrency {T : Type} (p : Promise T)
    (concurrency : Concurrency) (consumer : T → Unit) : Promise Void :=
  if concurrency.IsAsync then
    OfRun (fun _ =>
      if p.err.isSome then (Void.mk, p.err)
      else
        let _ := consumer p.value
        (Void.mk, none))
  else
    if p.err.isSome then Completed Void.mk
    else
      let _ := consumer p.value
      Completed Void.mk

/-- `ThenAccept(consumer)` = `ThenAcceptWithConcurrency(Async, consumer)`. -/
def ThenAccept {T : Type} (p : Promise T) (consumer : T → Unit) : Promise Void :=
  p.ThenAcceptWithConcurrency .async consumer

end Promise

/-- `MapWithConcurrency(p, concurrency, mapper)` (lines 208–230): async — a
fresh `Of` promise whose supplier waits on the gate, returns
`(zero, p.err)` on a failed source and `(mapper(p.value), nil)` otherwise;
sync — waits, and on a failed source returns `Completed(zero)` (the error
is dropped), otherwise `Completed(mapper(p.value))`. -/
def MapWithConcurrency {T R : Type} [Inhabited R] (p : Promise T)
    (concurrency : Concurrency) (mapper : T → R) : Promise R :=
  if concurrency.IsAsync then
    Promise.OfRun (fun _ =>
      if p.err.isSome then ((default : R), p.err)
      else (mapper p.value, none))
  else
    if p.err.isSome then Promise.Completed (default : R)
    else Promise.Completed (mapper p.value)

/-- `Map(p, mapper)` = `MapWithConcurrency(p, Async, mapper)`. -/
def Map {T R : Type} [Inhabited R] (p : Promise T) (mapper : T → R) : Promise R :=
  MapWithConcurrency p .async mapper

/-- `ComposeWithConcurrency(p, concurrency, composer)` (lines 238–270):
async — a fresh `Of` promise whose supplier waits on the source gate,
returns `(zero, p.err)` on a failed source, otherwise calls the composer,
waits on the dependent promise's gate, and returns its `(value, err)`;
sync — waits, returns `Completed(zero)` on a failed source (the error is
dropped), otherwise returns the composer's promise itself.  The composer is
embedded as returning the dependent promise in its post-gate snapshot;
theorems about the async variant assume its `doneClosed = true`. -/
def ComposeWithConcurrency {T R : Type} [Inhabited R] (p : Promise T)
    (concurrency : Concurrency) (composer : T → Promise R) : Promise R :=
  if concurrency.IsAsync then
    Promise.OfRun (fun _ =>
      if p.err.isSome then ((default : R), p.err)
      else
        let next := composer p.value
        (next.value, next.err))
  else
    if p.err.isSome then Promise.Completed (default : R)
    else composer p.value

/-- `Compose(p, composer)` = `ComposeWithConcurrency(p, Async, composer)`. -/
def Compose {T R : Type} [Inhabited R] (p : Promise T) (composer : T → Promise R) : Promise R :=
  ComposeWithConcurrency p .async composer

/-- A failed promise as produced by `Of` of a supplier that returns
`(0, errors.New("not completed"))` — the shape used by the package's own
tests for the failed-source cases. -/
def failedInt : Promise Int :=
  Promise.OfRun (fun _ => ((0 : Int), some ("not completed")))

/-- C1: the claim says a supplier finishing after the promise was already
moved to a terminal state (here: by `Timeout`'s `CompleteExceptionally`) is
rejected as a no-op.  The code disagrees: the goroutine of `Of` writes
`value`, `err` and `state` without checking that `state` is still
`Running`, so after the timeout transition `Running → Failed` the
supplier's write flips the promise to `Success` — a reversed terminal
transition that changes state, value and err. -/
theorem c1_of_supplier_overwrites_terminal_state :
    (Promise.timeoutFire (Promise.OfInit Int)).1 = true ∧
    (Promise.timeoutFire (Promise.OfInit Int)).2.state = State.failed ∧
    (Promise.timeoutFire (Promise.OfInit Int)).2.err = some Promise.timeoutError ∧
    ((Promise.timeoutFire (Promise.OfInit Int)).2.supplierWrite 42 none).state = State.success ∧
    ((Promise.timeoutFire (Promise.OfInit Int)).2.supplierWrite 42 none).err = none ∧
    ((Promise.timeoutFire (Promise.OfInit Int)).2.supplierWrite 42 none).value = 42 := by
  decide

/-- C2 counterexample: the claim says that once the gate is closed no
subsequent operation changes `(value, err)`.  A synchronous `Then` on an
already-completed promise returns the receiver itself (Boolean `false` in
the embedding: no fresh allocation) with its `value` field overwritten, so
a reader of the same promise observes `6` where it previously observed `5`;
likewise the supplier write of `Of` changes `err` after `Timeout` closed
the gate. -/
theorem c2_sync_then_mutates_after_gate_closed :
    (Promise.Completed (5 : Int)).doneClosed = true ∧
    ((Promise.Completed (5 : Int)).ThenWithConcurrency .sync (fun v => v + 1)).1 = false ∧
    ((Promise.Completed (5 : Int)).ThenWithConcurrency .sync (fun v => v + 1)).2.value ≠
      (Promise.Completed (5 : Int)).value ∧
    (Promise.timeoutFire (Promise.OfInit Int)).2.doneClosed = true ∧
    ((Promise.timeoutFire (Promise.OfInit Int)).2.supplierWrite 42 none).err ≠
      (Promise.timeoutFire (Promise.OfInit Int)).2.err := by
  decide

/-- C2 amended: once a promise is terminal (gate closed, state no longer
`Running`), the completion operations `Complete`, `CompleteExceptionally`
and `Cancel` leave it entirely unchanged — `(value, err)` are frozen with
respect to them.  (A synchronous `Then` and the supplier write of `Of` are
the two exceptions exhibited by the counterexample.) -/
theorem c2_frozen_wrt_completion_ops {T : Type} (p : Promise T) (v : T) (e : Option Err)
    (hd : p.doneClosed = true) (hs : p.state ≠ State.running) :
    (p.Complete v).2 = p ∧ (p.CompleteExceptionally e).2 = p ∧ p.Cancel = p := by
  simp [Promise.Complete, Promise.CompleteExceptionally, Promise.Cancel, hs]

/-- Witness for the amended C2 at the concrete promise `Completed 0`. -/
theorem c2_frozen_wrt_completion_ops_witness :
    ((Promise.Completed (0 : Int)).Complete 1).2 = Promise.Completed (0 : Int) ∧
    ((Promise.Completed (0 : Int)).CompleteExceptionally (some ("e"))).2 =
      Promise.Completed (0 : Int) ∧
    (Promise.Completed (0 : Int)).Cancel = Promise.Completed (0 : Int) :=
  c2_frozen_wrt_completion_ops (Promise.Completed (0 : Int)) 1 (some ("e"))
    (by decide) (by decide)

/-- C3: on a source that failed with `errors.New("not completed")` (the
shape of the package's own `Test_MapWithConcurrency` "failure sync" and
`Test_ComposeWithConcurrency` "error (sync)" cases), the synchronous
variants of `Map` and `Compose` return `Completed(zero)` — a `Success`
promise with nil error — instead of forwarding the failure, contradicting
the claim and those tests.  The asynchronous variants and both variants of
`Then` do forward the failure untouched, and no variant invokes the
user-supplied function (the failed branches are function-free). -/
theorem c3_sync_map_and_compose_drop_failure :
    failedInt.state = State.failed ∧
    failedInt.err = some ("not completed") ∧
    (MapWithConcurrency failedInt .sync (fun _ : Int => (0 : Int))).state = State.success ∧
    (MapWithConcurrency failedInt .sync (fun _ : Int => (0 : Int))).err = none ∧
    (ComposeWithConcurrency failedInt .sync (fun _ : Int => Promise.Completed (9 : Int))).state
      = State.success ∧
    (ComposeWithConcurrency failedInt .sync (fun _ : Int => Promise.Completed (9 : Int))).err
      = none ∧
    (MapWithConcurrency failedInt .async (fun _ : Int => (0 : Int))).state = State.failed ∧
    (MapWithConcurrency failedInt .async (fun _ : Int => (0 : Int))).err
      = some ("not completed") ∧
    (ComposeWithConcurrency failedInt .async (fun _ : Int => Promise.Completed (9 : Int))).state
      = State.failed ∧
    (ComposeWithConcurrency failedInt .async (fun _ : Int => Promise.Completed (9 : Int))).err
      = some ("not completed") ∧
    failedInt.ThenWithConcurrency .sync (fun v => v + 1) = (false, failedInt) ∧
    failedInt.ThenWithConcurrency .async (fun v => v + 1) = (false, failedInt) := by
  decide

/-- C4: `Empty[int]()` then `Cancel()`: `IsCancelled()` is true and a later
`Complete(5)` returns false with `IsSuccess()` still false, as the claim
says — but `Get()` returns a nil error, because `Cancel` never writes
`err`, contradicting the claim (and the package's own `Test_Cancel`
assertion that `Get()` should fail for a cancelled promise). -/
theorem c4_get_after_cancel_returns_nil_error :
    (Promise.Empty Int).Cancel.IsCancelled = true ∧
    (Promise.Empty Int).Cancel.doneClosed = true ∧
    ((Promise.Empty Int).Cancel.Get).2 = none ∧
    ((Promise.Empty Int).Cancel.Complete 5).1 = false ∧
    ((Promise.Empty Int).Cancel.Complete 5).2.IsSuccess = false := by
  decide

/-- C5: on a failed source, the synchronous `ThenAccept` returns
`Completed(Void{})` — a `Success` unit promise with nil error — instead of
carrying the failure, contradicting the claim (and the package's own
`Test_ThenAcceptWithConcurrency` "uncompleted sync" case, which asserts a
non-nil error).  The asynchronous variant does carry the failure. -/
theorem c5_sync_thenaccept_drops_failure :
    failedInt.err = some ("not completed") ∧
    (failedInt.ThenAcceptWithConcurrency .sync (fun _ => ())).state = State.success ∧
    (failedInt.ThenAcceptWithConcurrency .sync (fun _ => ())).err = none ∧
    (failedInt.ThenAcceptWithConcurrency .async (fun _ => ())).state = State.failed ∧
    (failedInt.ThenAcceptWithConcurrency .async (fun _ => ())).err
      = some ("not completed") := by
  decide

/-- C6: on a successful source, `Then(f)` returns a freshly allocated
promise (Boolean `true`: not the receiver pointer) that succeeded with the
transformed value `f(p.value)`; on a failed source `q` it returns `q`
itself unchanged, forwarding the failure. -/
theorem c6_then_transforms_success_into_new_promise {T : Type} [Inhabited T]
    (p q : Promise T) (f : T → T) (e : Err)
    (hs : p.state = State.success) (he : p.err = none) (hq : q.err = some e) :
    (p.Then f).1 = true ∧
    (p.Then f).2.value = f p.value ∧
    (p.Then f).2.state = State.success ∧
    (p.Then f).2.err = none ∧
    q.Then f = (false, q) := by
  simp [Promise.Then, Promise.ThenWithConcurrency, Concurrency.IsAsync, he, hq,
    Promise.OfRun, Promise.supplierWrite, Promise.OfInit]

/-- Witness for C6 at `Completed 5`, `f = (· * 2)` and the failed source
`failedInt`. -/
theorem c6_then_witness :
    ((Promise.Completed (5 : Int)).Then (fun v => v * 2)).1 = true ∧
    ((Promise.Completed (5 : Int)).Then (fun v => v * 2)).2.value =
      (fun v : Int => v * 2) (Promise.Completed (5 : Int)).value ∧
    ((Promise.Completed (5 : Int)).Then (fun v => v * 2)).2.state = State.success ∧
    ((Promise.Completed (5 : Int)).Then (fun v => v * 2)).2.err = none ∧
    failedInt.Then (fun v : Int => v * 2) = (false, failedInt) :=
  c6_then_transforms_success_into_new_promise (Promise.Completed (5 : Int)) failedInt
    (fun v => v * 2) ("not completed") (by decide) (by decide) (by decide)

/-- C7: on a running promise the first `Complete(v1)` succeeds; the second
`Complete(v2)` returns false and changes nothing.  On any terminal promise
`q`, `Complete` and `CompleteExceptionally` are no-ops returning false, and
`Cancel` is a no-op (it returns no value in the source). -/
theorem c7_exactly_once_completion {T : Type} (p q : Promise T) (v1 v2 : T) (e : Option Err)
    (hp : p.state = State.running) (hq : q.state ≠ State.running) :
    (p.Complete v1).1 = true ∧
    (p.Complete v1).2.value = v1 ∧
    (p.Complete v1).2.state = State.success ∧
    ((p.Complete v1).2.Complete v2).1 = false ∧
    ((p.Complete v1).2.Complete v2).2 = (p.Complete v1).2 ∧
    (q.Complete v2).1 = false ∧
    (q.Complete v2).2 = q ∧
    (q.CompleteExceptionally e).1 = false ∧
    (q.CompleteExceptionally e).2 = q ∧
    q.Cancel = q := by
  simp [Promise.Complete, Promise.CompleteExceptionally, Promise.Cancel, hp, hq]

/-- Witness for C7 at `Empty Int` (running) and a cancelled promise
(terminal). -/
theorem c7_exactly_once_completion_witness :
    ((Promise.Empty Int).Complete 1).1 = true ∧
    ((Promise.Empty Int).Complete 1).2.value = 1 ∧
    ((Promise.Empty Int).Complete 1).2.state = State.success ∧
    (((Promise.Empty Int).Complete 1).2.Complete 2).1 = false ∧
    (((Promise.Empty Int).Complete 1).2.Complete 2).2 = ((Promise.Empty Int).Complete 1).2 ∧
    ((Promise.Empty Int).Cancel.Complete 2).1 = false ∧
    ((Promise.Empty Int).Cancel.Complete 2).2 = (Promise.Empty Int).Cancel ∧
    ((Promise.Empty Int).Cancel.CompleteExceptionally (some ("e"))).1 = false ∧
    ((Promise.Empty Int).Cancel.CompleteExceptionally (some ("e"))).2 =
      (Promise.Empty Int).Cancel ∧
    (Promise.Empty Int).Cancel.Cancel = (Promise.Empty Int).Cancel :=
  c7_exactly_once_completion (Promise.Empty Int) (Promise.Empty Int).Cancel 1 2 (some ("e"))
    (by decide) (by decide)

/-- C8: on a successful source whose composer's dependent promise ended
`Failed` with `e`, both variants of `Compose` produce a promise that is
`Failed` with that nested `e`: the asynchronous one wraps
`(next.value, next.err)` in a fresh `Of` promise, the synchronous one
returns the dependent promise itself. -/
theorem c8_compose_propagates_nested_failure {T R : Type} [Inhabited T] [Inhabited R]
    (p : Promise T) (composer : T → Promise R) (e : Err)
    (hs : p.state = State.success) (he : p.err = none)
    (hq : (composer p.value).state = State.failed)
    (hqe : (composer p.value).err = some e)
    (hqd : (composer p.value).doneClosed = true) :
    (ComposeWithConcurrency p .async composer).state = State.failed ∧
    (ComposeWithConcurrency p .async composer).err = some e ∧
    ComposeWithConcurrency p .sync composer = composer p.value ∧
    (ComposeWithConcurrency p .sync composer).state = State.failed ∧
    (ComposeWithConcurrency p .sync composer).err = some e := by
  simp [ComposeWithConcurrency, Concurrency.IsAsync, he, hq, hqe,
    Promise.OfRun, Promise.supplierWrite, Promise.OfInit]

/-- Witness for C8 at source `Completed 1` and a composer returning the
failed promise `failedInt`. -/
theorem c8_compose_witness :
    (ComposeWithConcurrency (Promise.Completed (1 : Int)) .async
      (fun _ : Int => failedInt)).state = State.failed ∧
    (ComposeWithConcurrency (Promise.Completed (1 : Int)) .async
      (fun _ : Int => failedInt)).err = some ("not completed") ∧
    ComposeWithConcurrency (Promise.Completed (1 : Int)) .sync (fun _ : Int => failedInt) =
      (fun _ : Int => failedInt) (Promise.Completed (1 : Int)).value ∧
    (ComposeWithConcurrency (Promise.Completed (1 : Int)) .sync
      (fun _ : Int => failedInt)).state = State.failed ∧
    (ComposeWithConcurrency (Promise.Completed (1 : Int)) .sync
      (fun _ : Int => failedInt)).err = some ("not completed") :=
  c8_compose_propagates_nested_failure (Promise.Completed (1 : Int))
    (fun _ : Int => failedInt) ("not completed")
    (by decide) (by decide) (by decide) (by decide) (by decide)

/-- C9 counterexample: the claim says `Get()` returns `(zero, e)` for every
supplier returning error `e`; but `Of` stores whatever value the supplier
returned alongside the error, so a supplier returning `(7, e)` yields
`Get() = (7, e)`, not `(0, e)`. -/
theorem c9_counterexample_nonzero_value_with_error :
    (Promise.OfRun (fun _ => ((7 : Int), some ("boom")))).state = State.failed ∧
    (Promise.OfRun (fun _ => ((7 : Int), some ("boom")))).Get ≠ ((0 : Int), some ("boom")) ∧
    (Promise.OfRun (fun _ => ((7 : Int), some ("boom")))).Get = ((7 : Int), some ("boom")) := by
  decide

/-- C9 amended: for every supplier returning `(v, e)` with `e` non-nil, the
`Of` promise ends `Failed`, `Get()` returns `(v, e)` — `v` being the value
the supplier returned alongside the error (the zero value under the usual
Go convention) — and `Join()` panics with `e` as payload. -/
theorem c9_failed_supplier_outcome {T : Type} [Inhabited T] (v : T) (e : Err) :
    (Promise.OfRun (fun _ => (v, some e))).state = State.failed ∧
    (Promise.OfRun (fun _ => (v, some e))).Get = (v, some e) ∧
    (Promise.OfRun (fun _ => (v, some e))).Join = Except.error e := by
  simp [Promise.OfRun, Promise.supplierWrite, Promise.OfInit, Promise.Get, Promise.Join]

/-- C10: `CompleteExceptionally(nil)` on a running promise returns true and
moves it to `Failed` with `err == nil`, so `IsError()` and
`IsCompletedExceptionally()` report true while `Get()` returns a nil
error. -/
theorem c10_complete_exceptionally_nil {T : Type} (p : Promise T)
    (h : p.state = State.running) :
    (p.CompleteExceptionally none).1 = true ∧
    (p.CompleteExceptionally none).2.state = State.failed ∧
    (p.CompleteExceptionally none).2.err = none ∧
    (p.CompleteExceptionally none).2.IsError = true ∧
    (p.CompleteExceptionally none).2.IsCompletedExceptionally = true ∧
    ((p.CompleteExceptionally none).2.Get).2 = none := by
  simp [Promise.CompleteExceptionally, Promise.IsError, Promise.IsCompletedExceptionally,
    Promise.Get, h]

/-- Witness for C10 at `Empty Int`. -/
theorem c10_complete_exceptionally_nil_witness :
    ((Promise.Empty Int).CompleteExceptionally none).1 = true ∧
    ((Promise.Empty Int).CompleteExceptionally none).2.state = State.failed ∧
    ((Promise.Empty Int).CompleteExceptionally none).2.err = none ∧
    ((Promise.Empty Int).CompleteExceptionally none).2.IsError = true ∧
    ((Promise.Empty Int).CompleteExceptionally none).2.IsCompletedExceptionally = true ∧
    (((Promise.Empty Int).CompleteExceptionally none).2.Get).2 = none :=
  c10_complete_exceptionally_nil (Promise.Empty Int) (by decide)

end Ego
